import Mathlib

/-!
Shallow embedding of `src/streamlit_app.py`, the single-file Streamlit
pipeline: script generation via an HTTP chat-completions call, speech
synthesis via gTTS, and video assembly via moviepy.

The embedding models the module-level credential check (lines 17-20), the
button handler (lines 41-122) as a pure function of an environment that
supplies the user inputs, the HTTP response, the measured audio duration,
the source image dimensions, and the OS-provided fresh temporary names.
Observable effects (network calls, TTS invocations, video writes, temp
allocations and releases) are recorded in the result.
-/

/-- Whitespace test matching Python's `str.strip` on the ASCII range:
space, tab, newline, carriage return, vertical tab, form feed. -/
def pyIsSpace (c : Char) : Bool :=
  c = ' ' || c = '\t' || c = '\n' || c = '\r' || c = '\x0b' || c = '\x0c'

/-- Python `str.strip()`: remove leading and trailing whitespace
(line 69: `.strip()`). -/
def pyStrip (s : String) : String :=
  ⟨List.rdropWhile pyIsSpace (s.data.dropWhile pyIsSpace)⟩

/-- Python `str.replace(old, new)` for one-character `old` and `new`
(line 120: `product_name.replace(' ', '_')`). -/
def pyReplaceChar (s : String) (o n : Char) : String :=
  ⟨s.data.map (fun c => if c = o then n else c)⟩

/-- The language codes offered by the selectbox (line 39), i.e. the keys of
`language_map` (lines 23-29). -/
inductive Lang
  | hi
  | en
  | bn
  | ta
  | mr
deriving DecidableEq

/-- `language_map` (lines 23-29): display name for each language code. -/
def languageName : Lang → String
  | .hi => "Hindi"
  | .en => "English"
  | .bn => "Bengali"
  | .ta => "Tamil"
  | .mr => "Marathi"

/-- JSON values, as needed to model the parsed response body (line 68). -/
inductive JsonVal
  | str (s : String)
  | num (n : Int)
  | arr (xs : List JsonVal)
  | obj (kvs : List (String × JsonVal))

/-- Python dict subscript `d[k]`: `none` models the `KeyError` (or
`TypeError`) exception. -/
def jGet : JsonVal → String → Option JsonVal
  | .obj kvs, k => kvs.lookup k
  | _, _ => none

/-- Python list subscript `l[i]`: `none` models the `IndexError` (or
`TypeError`) exception. -/
def jIndex : JsonVal → Nat → Option JsonVal
  | .arr xs, i => xs.get? i
  | _, _ => none

/-- Reading a JSON value as a string; `none` models the `AttributeError`
raised by `.strip()` on a non-string. -/
def jStr : JsonVal → Option String
  | .str s => some s
  | _ => none

/-- Line 69: `data["choices"][0]["message"]["content"]`, the single
extraction path the code applies to the parsed response. `none` models an
uncaught exception on a body of any other shape. -/
def extractContent (data : JsonVal) : Option String := do
  let choices ← jGet data "choices"
  let c0 ← jIndex choices 0
  let msg ← jGet c0 "message"
  let content ← jGet msg "content"
  jStr content

/-- Python `str.split(sep)` for a one-character separator, on character
lists: split at every separator occurrence, keeping empty pieces, with the
empty string splitting to one empty piece. -/
def splitOnChar (sep : Char) : List Char → List (List Char)
  | [] => [[]]
  | c :: rest =>
    if c = sep then
      [] :: splitOnChar sep rest
    else
      match splitOnChar sep rest with
      | [] => [[c]]
      | h :: t => (c :: h) :: t

/-- Line 48: `[f.strip() for f in features.split(",") if f.strip()]`. -/
def mkFeatureList (features : String) : List String :=
  ((splitOnChar ',' features.data).map (fun l => pyStrip ⟨l⟩)).filter
    (fun f => f ≠ "")

/-- Lines 49-54: the prompt f-string. -/
def mkPrompt (name features ctx : String) (lang : Lang) : String :=
  "Write a 2-sentence sales pitch in " ++ languageName lang ++ " for this product:\n" ++
  "• Name: " ++ name ++ "\n" ++
  "• Features: " ++ String.intercalate ", " (mkFeatureList features) ++ "\n" ++
  "Tone: friendly, festive. Context: " ++ ctx ++ "."

/-- The synthesized audio: its file path (the `NamedTemporaryFile` of
line 76) and the duration measured from the encoded file by
`AudioFileClip(...).duration` (lines 89-90). -/
structure AudioTrack where
  filePath : String
  durationSeconds : Rat

/-- Line 93: `ImageClip(img_path).resize(width=1280).set_duration(duration)`.
`resize(width=1280)` preserves the aspect ratio, so the height is the
source height scaled by `1280 / source width`. -/
structure ImageClip where
  path : String
  width : Rat
  height : Rat
  duration : Rat

/-- Lines 94-98: the caption `TextClip` and its parameters. -/
structure TextClip where
  text : String
  font : String
  fontsize : Nat
  method : String
  align : String
  duration : Rat
  position : String × String

/-- Lines 99-111: `CompositeVideoClip([img_clip, txt_clip]).set_audio(...)`
written out with `write_videofile`. The composite's duration is the
maximum of its layers' durations; `audio` is the sole attached audio
stream. -/
structure VideoAsset where
  filePath : String
  durationSeconds : Rat
  fps : Nat
  codec : String
  audioCodec : String
  img : ImageClip
  txt : TextClip
  audio : AudioTrack

/-- Everything the run reads from outside: configuration, the form inputs,
the HTTP response (status, raw text, parsed JSON or `none` when
`resp.json()` raises), the duration measured from the encoded audio, the
uploaded image's dimensions, and the fresh names handed out by
`NamedTemporaryFile` and `mkdtemp`. -/
structure Env where
  apiKey : Option String
  uploadedFile : Bool
  productName : String
  features : String
  context : String
  language : Lang
  respStatus : Nat
  respText : String
  respJson : Option JsonVal
  measuredAudioDuration : Rat
  imgW : Rat
  imgH : Rat
  audioTmpName : String
  tmpDirName : String

/-- How a run of the app ends. `crashed` models an uncaught Python
exception (unparseable body or unexpected response shape). -/
inductive Outcome
  | stoppedMissingKey
  | stoppedNoImage
  | stoppedApiError (status : Nat) (body : String)
  | crashed
  | completed (video : VideoAsset) (script : String) (fileName : String)

/-- The outcome of a run together with its observable effects. -/
structure RunResult where
  outcome : Outcome
  networkCalls : Nat
  ttsCalls : Nat
  ttsText : Option String
  videoWrites : Nat
  tempAllocated : List String
  tempReleased : List String
  promptSent : Option String

/-- Lines 88-111: measure the audio duration from the encoded file, build
the image and caption clips with that duration, composite them, attach the
audio, and encode at 24 fps with libx264 / aac. -/
def assembleVideo (env : Env) (script : String) : VideoAsset :=
  let audioClip : AudioTrack :=
    { filePath := env.audioTmpName, durationSeconds := env.measuredAudioDuration }
  let duration := audioClip.durationSeconds
  let img : ImageClip :=
    { path := env.tmpDirName ++ "/product.png", width := 1280,
      height := env.imgH * 1280 / env.imgW, duration := duration }
  let txt : TextClip :=
    { text := script, font := "Amiri-Bold", fontsize := 50, method := "caption",
      align := "South", duration := duration, position := ("center", "bottom") }
  { filePath := env.tmpDirName ++ "/product_video.mp4",
    durationSeconds := max img.duration txt.duration,
    fps := 24, codec := "libx264", audioCodec := "aac",
    img := img, txt := txt, audio := audioClip }

/-- Line 120: `f"{product_name.replace(' ', '_')}.mp4"`. -/
def mkFileName (productName : String) : String :=
  pyReplaceChar productName ' ' '_' ++ ".mp4"

/-- The app: the module-level credential check (lines 17-20), then the
button handler (lines 41-122). One evaluation models one click of the
Generate button in a process started with the given environment. -/
def run (env : Env) : RunResult :=
  match env.apiKey with
  | none =>
    { outcome := .stoppedMissingKey, networkCalls := 0, ttsCalls := 0, ttsText := none,
      videoWrites := 0, tempAllocated := [], tempReleased := [], promptSent := none }
  | some _ =>
    if env.uploadedFile then
      let prompt := mkPrompt env.productName env.features env.context env.language
      if env.respStatus = 200 then
        match env.respJson.bind extractContent with
        | none =>
          { outcome := .crashed, networkCalls := 1, ttsCalls := 0, ttsText := none,
            videoWrites := 0, tempAllocated := [], tempReleased := [],
            promptSent := some prompt }
        | some content =>
          let script := pyStrip content
          { outcome := .completed (assembleVideo env script) script
              (mkFileName env.productName),
            networkCalls := 1, ttsCalls := 1, ttsText := some script,
            videoWrites := 1, tempAllocated := [env.audioTmpName, env.tmpDirName],
            tempReleased := [], promptSent := some prompt }
      else
        { outcome := .stoppedApiError env.respStatus env.respText, networkCalls := 1,
          ttsCalls := 0, ttsText := none, videoWrites := 0, tempAllocated := [],
          tempReleased := [], promptSent := some prompt }
    else
      { outcome := .stoppedNoImage, networkCalls := 0, ttsCalls := 0, ttsText := none,
        videoWrites := 0, tempAllocated := [], tempReleased := [], promptSent := none }

/-- A chat-completions response body of the shape the code expects. -/
def chatJson (content : String) : JsonVal :=
  .obj [("choices", .arr [.obj [("message", .obj [("content", .str content)])]])]

/-- A fully successful environment, used as a concrete test input. -/
def goodEnv : Env :=
  { apiKey := some "key", uploadedFile := true, productName := "Handcrafted Brass Lamp",
    features := "eco-friendly, long-lasting, intricate design", context := "Diwali gifting",
    language := .hi, respStatus := 200, respText := "{...}",
    respJson := some (chatJson "  A lamp for every festive home.  "),
    measuredAudioDuration := 3, imgW := 800, imgH := 600,
    audioTmpName := "/tmp/tmpaudio0.mp3", tmpDirName := "/tmp/dir0" }

/-- The script `goodEnv`'s run forwards downstream. -/
def goodScript : String := pyStrip "  A lamp for every festive home.  "

/-- The video asset `goodEnv`'s run produces. -/
def goodVideo : VideoAsset := assembleVideo goodEnv goodScript

/-- The download file name `goodEnv`'s run suggests. -/
def goodFileName : String := mkFileName goodEnv.productName

/-- Splitting a list into its right-stripped part and the stripped tail. -/
theorem rdropWhile_append_rtakeWhile (p : Char → Bool) (l : List Char) :
    List.rdropWhile p l ++ List.rtakeWhile p l = l := by
  unfold List.rdropWhile List.rtakeWhile
  rw [← List.reverse_append, List.takeWhile_append_dropWhile, List.reverse_reverse]

/-- The characters of a stripped string, unfolded. -/
theorem pyStrip_data (s : String) :
    (pyStrip s).data = List.rdropWhile pyIsSpace (s.data.dropWhile pyIsSpace) := rfl

/-- A string is its leading whitespace, its stripped core, and its trailing
whitespace, in that order. -/
theorem pyStrip_decomp (s : String) :
    s.data = s.data.takeWhile pyIsSpace ++ ((pyStrip s).data ++
      List.rtakeWhile pyIsSpace (s.data.dropWhile pyIsSpace)) := by
  rw [pyStrip_data, rdropWhile_append_rtakeWhile, List.takeWhile_append_dropWhile]

/-- Everything `pyStrip` removes at the front is whitespace. -/
theorem takeWhile_space_all (s : String) :
    (s.data.takeWhile pyIsSpace).all pyIsSpace = true := by
  rw [List.all_eq_true]
  intro c hc
  exact List.mem_takeWhile_imp hc

/-- Everything `pyStrip` removes at the back is whitespace. -/
theorem rtakeWhile_space_all (s : String) :
    (List.rtakeWhile pyIsSpace (s.data.dropWhile pyIsSpace)).all pyIsSpace = true := by
  rw [List.all_eq_true]
  intro c hc
  exact List.mem_rtakeWhile_imp hc

/-- A stripped string does not start with whitespace. -/
theorem pyStrip_head_not_space (s : String) :
    ((pyStrip s).data.head?.map pyIsSpace).getD false = false := by
  rw [pyStrip_data]
  rcases hd : List.rdropWhile pyIsSpace (s.data.dropWhile pyIsSpace) with _ | ⟨c, rest⟩
  · rfl
  · have hpre := List.rdropWhile_prefix pyIsSpace (s.data.dropWhile pyIsSpace)
    rw [hd] at hpre
    obtain ⟨t, ht⟩ := hpre
    have hne : s.data.dropWhile pyIsSpace ≠ [] := by
      rw [← ht]; simp
    have hh := List.head_dropWhile_not pyIsSpace s.data hne
    have h1 : (s.data.dropWhile pyIsSpace).head? = some c := by
      rw [← ht]; rfl
    have h2 := List.head?_eq_head hne
    rw [h1] at h2
    have h3 : c = (s.data.dropWhile pyIsSpace).head hne := Option.some.inj h2
    simp only [List.head?_cons, Option.map_some', Option.getD_some, h3]
    simpa using hh

/-- A stripped string does not end with whitespace. -/
theorem pyStrip_last_not_space (s : String) :
    ((pyStrip s).data.getLast?.map pyIsSpace).getD false = false := by
  rw [pyStrip_data]
  by_cases hne : List.rdropWhile pyIsSpace (s.data.dropWhile pyIsSpace) = []
  · rw [hne]; rfl
  · rw [List.getLast?_eq_getLast _ hne]
    have hl := List.rdropWhile_last_not pyIsSpace (s.data.dropWhile pyIsSpace) hne
    simpa using hl

/-- The concatenation of two strings, at the level of character lists. -/
theorem string_data_append (s t : String) : (s ++ t).data = s.data ++ t.data := rfl

/-- What a run looks like once the credential, the image, and a 200
response are in hand: it crashes when the single extraction path fails,
and otherwise completes with the stripped extracted text. -/
theorem run_200_eq (env : Env) (k : String) (hk : env.apiKey = some k)
    (hu : env.uploadedFile = true) (hs : env.respStatus = 200) :
    run env =
      match env.respJson.bind extractContent with
      | none =>
        { outcome := .crashed, networkCalls := 1, ttsCalls := 0, ttsText := none,
          videoWrites := 0, tempAllocated := [], tempReleased := [],
          promptSent := some (mkPrompt env.productName env.features env.context
            env.language) }
      | some content =>
        { outcome := .completed (assembleVideo env (pyStrip content)) (pyStrip content)
            (mkFileName env.productName),
          networkCalls := 1, ttsCalls := 1, ttsText := some (pyStrip content),
          videoWrites := 1, tempAllocated := [env.audioTmpName, env.tmpDirName],
          tempReleased := [], promptSent := some (mkPrompt env.productName env.features
            env.context env.language) } := by
  unfold run
  rw [hk]
  simp only [hu, hs, if_true, ite_true]

/-- Inverting a completed run: the credential was present, an image was
uploaded, the response had status 200, the single extraction path
succeeded, and the outcome's components are determined by the environment. -/
theorem run_completed_inv (env : Env) (va : VideoAsset) (s f : String)
    (h : (run env).outcome = .completed va s f) :
    ∃ k c, env.apiKey = some k ∧ env.uploadedFile = true ∧ env.respStatus = 200 ∧
      env.respJson.bind extractContent = some c ∧ s = pyStrip c ∧
      va = assembleVideo env s ∧ f = mkFileName env.productName := by
  unfold run at h
  rcases hk : env.apiKey with _ | k <;> rw [hk] at h
  · simp at h
  · rcases hu : env.uploadedFile <;> rw [hu] at h
    · simp at h
    · by_cases hs : env.respStatus = 200
      · rw [if_pos hs] at h
        rcases hc : env.respJson.bind extractContent with _ | c <;> rw [hc] at h
        · simp at h
        · have h' : Outcome.completed (assembleVideo env (pyStrip c)) (pyStrip c)
              (mkFileName env.productName) = Outcome.completed va s f := h
          injection h' with hva hsc hf
          refine ⟨k, c, rfl, rfl, hs, rfl, hsc.symm, ?_, hf.symm⟩
          rw [← hva, hsc]
      · rw [if_neg hs] at h
        simp at h

/-- `(run e).tempReleased` is empty on every path: the code never deletes
its `NamedTemporaryFile` (created with `delete=False`) or its `mkdtemp`
directory. -/
theorem run_never_releases (e : Env) : (run e).tempReleased = [] := by
  unfold run
  rcases e.apiKey with _ | k
  · rfl
  · rcases e.uploadedFile
    · rfl
    · by_cases hs : e.respStatus = 200
      · rw [if_pos hs]
        rcases e.respJson.bind extractContent with _ | c <;> rfl
      · rw [if_neg hs]; rfl

/-- The characters of a replaced string, unfolded. -/
theorem pyReplaceChar_data (s : String) (o n : Char) :
    (pyReplaceChar s o n).data = s.data.map (fun c => if c = o then n else c) := rfl

/-- Claim C1: for every run that reaches video assembly, the image
hold-time, the caption hold-time, and the resulting video's duration all
equal the duration measured from the actual encoded audio file, so
`VideoAsset.durationSeconds = AudioTrack.durationSeconds`. -/
theorem duration_authority (env : Env) (va : VideoAsset) (s f : String)
    (h : (run env).outcome = .completed va s f) :
    va.durationSeconds = va.audio.durationSeconds ∧
    va.img.duration = va.audio.durationSeconds ∧
    va.txt.duration = va.audio.durationSeconds ∧
    va.audio.durationSeconds = env.measuredAudioDuration := by
  obtain ⟨k, c, -, -, -, -, -, hva, -⟩ := run_completed_inv env va s f h
  subst hva
  refine ⟨?_, rfl, rfl, rfl⟩
  exact max_self env.measuredAudioDuration

/-- Witness for C1 at the concrete successful environment `goodEnv`. -/
theorem duration_authority_witness :
    goodVideo.durationSeconds = goodVideo.audio.durationSeconds ∧
    goodVideo.img.duration = goodVideo.audio.durationSeconds ∧
    goodVideo.txt.duration = goodVideo.audio.durationSeconds ∧
    goodVideo.audio.durationSeconds = goodEnv.measuredAudioDuration :=
  duration_authority goodEnv goodVideo goodScript goodFileName rfl

/-- Claim C2: a non-200 response stops the run in a failed state carrying
the status and the raw body; speech synthesis and video assembly are never
invoked afterwards. -/
theorem api_error_stops_pipeline (env : Env) (k : String)
    (hk : env.apiKey = some k) (hu : env.uploadedFile = true)
    (hs : env.respStatus ≠ 200) :
    (run env).outcome = .stoppedApiError env.respStatus env.respText ∧
    (run env).ttsCalls = 0 ∧ (run env).videoWrites = 0 ∧
    (run env).ttsText = none := by
  unfold run
  rw [hk]
  simp [hu, hs]

/-- An environment whose generation service answers HTTP 500. -/
def apiErrorEnv : Env :=
  { goodEnv with respStatus := 500, respText := "Internal Server Error" }

/-- Witness for C2 at a concrete HTTP 500 environment. -/
theorem api_error_stops_pipeline_witness :
    (run apiErrorEnv).outcome =
      .stoppedApiError apiErrorEnv.respStatus apiErrorEnv.respText ∧
    (run apiErrorEnv).ttsCalls = 0 ∧ (run apiErrorEnv).videoWrites = 0 ∧
    (run apiErrorEnv).ttsText = none :=
  api_error_stops_pipeline apiErrorEnv "key" rfl rfl (by decide)

/-- Claim C5: a missing credential stops the app at startup, before any
pipeline run; no network call, speech synthesis, or video write happens. -/
theorem missing_key_preflight (env : Env) (h : env.apiKey = none) :
    (run env).outcome = .stoppedMissingKey ∧ (run env).networkCalls = 0 ∧
    (run env).ttsCalls = 0 ∧ (run env).videoWrites = 0 ∧
    (run env).tempAllocated = [] := by
  unfold run
  rw [h]
  exact ⟨rfl, rfl, rfl, rfl, rfl⟩

/-- An environment with no credential configured. -/
def noKeyEnv : Env := { goodEnv with apiKey := none }

/-- Witness for C5 at a concrete credential-free environment. -/
theorem missing_key_preflight_witness :
    (run noKeyEnv).outcome = .stoppedMissingKey ∧ (run noKeyEnv).networkCalls = 0 ∧
    (run noKeyEnv).ttsCalls = 0 ∧ (run noKeyEnv).videoWrites = 0 ∧
    (run noKeyEnv).tempAllocated = [] :=
  missing_key_preflight noKeyEnv rfl

/-- Claim C7: a successful composition scales the image to width 1280
preserving the aspect ratio, renders the caption from the script text in
word-wrapped "caption" layout at the bottom-center, attaches the audio
track as the sole audio stream, and encodes at 24 fps with libx264 video
and aac audio. -/
theorem compose_parameters (env : Env) (va : VideoAsset) (s f : String)
    (hw : env.imgW ≠ 0) (h : (run env).outcome = .completed va s f) :
    va.img.width = 1280 ∧
    va.img.height * env.imgW = env.imgH * va.img.width ∧
    va.txt.text = s ∧ va.txt.method = "caption" ∧ va.txt.align = "South" ∧
    va.txt.position = ("center", "bottom") ∧
    va.audio.filePath = env.audioTmpName ∧
    va.audio.durationSeconds = env.measuredAudioDuration ∧
    va.fps = 24 ∧ va.codec = "libx264" ∧ va.audioCodec = "aac" := by
  obtain ⟨k, c, -, -, -, -, -, hva, -⟩ := run_completed_inv env va s f h
  subst hva
  refine ⟨rfl, ?_, rfl, rfl, rfl, rfl, rfl, rfl, rfl, rfl, rfl⟩
  show env.imgH * 1280 / env.imgW * env.imgW = env.imgH * 1280
  rw [div_mul_cancel₀ _ hw]

/-- Witness for C7 at `goodEnv` (source image 800 x 600). -/
theorem compose_parameters_witness :
    goodVideo.img.width = 1280 ∧
    goodVideo.img.height * goodEnv.imgW = goodEnv.imgH * goodVideo.img.width ∧
    goodVideo.txt.text = goodScript ∧ goodVideo.txt.method = "caption" ∧
    goodVideo.txt.align = "South" ∧
    goodVideo.txt.position = ("center", "bottom") ∧
    goodVideo.audio.filePath = goodEnv.audioTmpName ∧
    goodVideo.audio.durationSeconds = goodEnv.measuredAudioDuration ∧
    goodVideo.fps = 24 ∧ goodVideo.codec = "libx264" ∧
    goodVideo.audioCodec = "aac" :=
  compose_parameters goodEnv goodVideo goodScript goodFileName (by decide) rfl

/-- Claim C9: the script forwarded to speech synthesis and to the caption
overlay equals the extracted response content with surrounding whitespace
removed: the forwarded text is the stripped extraction, the removed ends
are all whitespace, and the stripped core neither starts nor ends with
whitespace. -/
theorem script_stripped (env : Env) (k c : String)
    (hk : env.apiKey = some k) (hu : env.uploadedFile = true)
    (hs : env.respStatus = 200)
    (hc : env.respJson.bind extractContent = some c) :
    (run env).ttsText = some (pyStrip c) ∧
    (run env).outcome = .completed (assembleVideo env (pyStrip c)) (pyStrip c)
      (mkFileName env.productName) ∧
    (assembleVideo env (pyStrip c)).txt.text = pyStrip c ∧
    c.data = c.data.takeWhile pyIsSpace ++ ((pyStrip c).data ++
      List.rtakeWhile pyIsSpace (c.data.dropWhile pyIsSpace)) ∧
    (c.data.takeWhile pyIsSpace).all pyIsSpace = true ∧
    (List.rtakeWhile pyIsSpace (c.data.dropWhile pyIsSpace)).all pyIsSpace = true ∧
    ((pyStrip c).data.head?.map pyIsSpace).getD false = false ∧
    ((pyStrip c).data.getLast?.map pyIsSpace).getD false = false := by
  rw [run_200_eq env k hk hu hs, hc]
  exact ⟨rfl, rfl, rfl, pyStrip_decomp c, takeWhile_space_all c,
    rtakeWhile_space_all c, pyStrip_head_not_space c, pyStrip_last_not_space c⟩

/-- The content string of `goodEnv`'s stubbed response. -/
def goodContent : String := "  A lamp for every festive home.  "

/-- Witness for C9 at `goodEnv`. -/
theorem script_stripped_witness :
    (run goodEnv).ttsText = some (pyStrip goodContent) ∧
    (run goodEnv).outcome = .completed (assembleVideo goodEnv (pyStrip goodContent))
      (pyStrip goodContent) (mkFileName goodEnv.productName) ∧
    (assembleVideo goodEnv (pyStrip goodContent)).txt.text = pyStrip goodContent ∧
    goodContent.data = goodContent.data.takeWhile pyIsSpace ++
      ((pyStrip goodContent).data ++
        List.rtakeWhile pyIsSpace (goodContent.data.dropWhile pyIsSpace)) ∧
    (goodContent.data.takeWhile pyIsSpace).all pyIsSpace = true ∧
    (List.rtakeWhile pyIsSpace
      (goodContent.data.dropWhile pyIsSpace)).all pyIsSpace = true ∧
    ((pyStrip goodContent).data.head?.map pyIsSpace).getD false = false ∧
    ((pyStrip goodContent).data.getLast?.map pyIsSpace).getD false = false :=
  script_stripped goodEnv "key" goodContent rfl rfl rfl rfl

/-- Claim C10: with no uploaded image, the run stops with an error before
any stage executes: no network call, no speech synthesis, no video write. -/
theorem no_image_stops_pipeline (env : Env) (k : String)
    (hk : env.apiKey = some k) (hu : env.uploadedFile = false) :
    (run env).outcome = .stoppedNoImage ∧ (run env).networkCalls = 0 ∧
    (run env).ttsCalls = 0 ∧ (run env).videoWrites = 0 ∧
    (run env).ttsText = none := by
  unfold run
  rw [hk, hu]
  exact ⟨rfl, rfl, rfl, rfl, rfl⟩

/-- An environment where generation is requested with no uploaded image. -/
def noImageEnv : Env := { goodEnv with uploadedFile := false }

/-- Witness for C10 at a concrete image-free environment. -/
theorem no_image_stops_pipeline_witness :
    (run noImageEnv).outcome = .stoppedNoImage ∧ (run noImageEnv).networkCalls = 0 ∧
    (run noImageEnv).ttsCalls = 0 ∧ (run noImageEnv).videoWrites = 0 ∧
    (run noImageEnv).ttsText = none :=
  no_image_stops_pipeline noImageEnv "key" rfl rfl

/-- An environment whose response is well-formed chat JSON with an empty
content string. -/
def emptyContentEnv : Env := { goodEnv with respJson := some (chatJson "") }

/-- Claim C3 counterexample: on a well-formed chat response whose content
is empty, the run does not fail — it invokes speech synthesis with the
empty script (`ttsCalls = 1`, `ttsText = some ""`), so empty text is
forwarded downstream, and the code never tries a second envelope shape. -/
theorem empty_script_forwarded_cex :
    extractContent (chatJson "") = some "" ∧
    (run emptyContentEnv).ttsCalls = 1 ∧
    (run emptyContentEnv).ttsText = some "" :=
  ⟨rfl, rfl, rfl⟩

/-- Claim C3 (amended): the script is extracted by the single chat-style
path `choices[0].message.content` and stripped, with no fallback shape and
no emptiness check: a parsed body of any other shape (for example a direct
generated-text field) raises an uncaught exception instead of a reported
script-generation failure, and empty extracted text is forwarded to speech
synthesis and captioning. -/
theorem single_path_extraction (env : Env) (k : String)
    (hk : env.apiKey = some k) (hu : env.uploadedFile = true)
    (hs : env.respStatus = 200) :
    (run env).ttsText = (env.respJson.bind extractContent).map pyStrip ∧
    extractContent (.obj [("generated_text", .str "a pitch")]) = none ∧
    (run env).outcome = (match env.respJson.bind extractContent with
      | none => Outcome.crashed
      | some c => Outcome.completed (assembleVideo env (pyStrip c)) (pyStrip c)
          (mkFileName env.productName)) := by
  rw [run_200_eq env k hk hu hs]
  rcases env.respJson.bind extractContent with _ | c
  · exact ⟨rfl, rfl, rfl⟩
  · exact ⟨rfl, rfl, rfl⟩

/-- Witness for the amended C3 at `emptyContentEnv`. -/
theorem single_path_extraction_witness :
    (run emptyContentEnv).ttsText =
      (emptyContentEnv.respJson.bind extractContent).map pyStrip ∧
    extractContent (.obj [("generated_text", .str "a pitch")]) = none ∧
    (run emptyContentEnv).outcome =
      (match emptyContentEnv.respJson.bind extractContent with
      | none => Outcome.crashed
      | some c => Outcome.completed (assembleVideo emptyContentEnv (pyStrip c))
          (pyStrip c) (mkFileName emptyContentEnv.productName)) :=
  single_path_extraction emptyContentEnv "key" rfl rfl rfl

/-- An environment whose features input is the empty string. -/
def emptyFeaturesEnv : Env := { goodEnv with features := "" }

/-- The prompt the run sends when the features input is empty. -/
def emptyFeaturesPrompt : String :=
  "Write a 2-sentence sales pitch in Hindi for this product:\n" ++
  "• Name: Handcrafted Brass Lamp\n" ++
  "• Features: \n" ++
  "Tone: friendly, festive. Context: Diwali gifting."

/-- Whether `pat` occurs as a contiguous run of characters inside the
second list. -/
def containsSeq (pat : List Char) : List Char → Bool
  | [] => decide (pat = [])
  | c :: rest => pat.isPrefixOf (c :: rest) || containsSeq pat rest

/-- Claim C4 counterexample: with an empty features input the prompt still
contains the feature clause — the characters "• Features:" occur in the
sent prompt — so the clause is not omitted. -/
theorem empty_features_clause_present_cex :
    (run emptyFeaturesEnv).promptSent = some emptyFeaturesPrompt ∧
    containsSeq "• Features:".data emptyFeaturesPrompt.data = true :=
  ⟨rfl, rfl⟩

/-- Claim C4 (amended): with an empty features input the parsed feature
list is empty and the prompt keeps the feature clause with an empty
enumeration ("• Features: " directly followed by a newline); the pipeline
proceeds normally. -/
theorem empty_features_prompt (env : Env) (k c : String)
    (hk : env.apiKey = some k) (hu : env.uploadedFile = true)
    (hs : env.respStatus = 200) (hf : env.features = "")
    (hc : env.respJson.bind extractContent = some c) :
    mkFeatureList env.features = [] ∧
    (run env).promptSent = some
      ("Write a 2-sentence sales pitch in " ++ languageName env.language ++
       " for this product:\n" ++ "• Name: " ++ env.productName ++ "\n" ++
       "• Features: " ++ "" ++ "\n" ++
       "Tone: friendly, festive. Context: " ++ env.context ++ ".") ∧
    (run env).outcome = .completed (assembleVideo env (pyStrip c)) (pyStrip c)
      (mkFileName env.productName) := by
  rw [run_200_eq env k hk hu hs, hc, hf]
  exact ⟨rfl, rfl, rfl⟩

/-- Witness for the amended C4 at `emptyFeaturesEnv`. -/
theorem empty_features_prompt_witness :
    mkFeatureList emptyFeaturesEnv.features = [] ∧
    (run emptyFeaturesEnv).promptSent = some
      ("Write a 2-sentence sales pitch in " ++ languageName emptyFeaturesEnv.language ++
       " for this product:\n" ++ "• Name: " ++ emptyFeaturesEnv.productName ++ "\n" ++
       "• Features: " ++ "" ++ "\n" ++
       "Tone: friendly, festive. Context: " ++ emptyFeaturesEnv.context ++ ".") ∧
    (run emptyFeaturesEnv).outcome =
      .completed (assembleVideo emptyFeaturesEnv (pyStrip goodContent))
        (pyStrip goodContent) (mkFileName emptyFeaturesEnv.productName) :=
  empty_features_prompt emptyFeaturesEnv "key" goodContent rfl rfl rfl rfl rfl

/-- Claim C6 counterexample: a fully successful run allocates its audio
temp file (`NamedTemporaryFile(delete=False)`) and its working directory
(`mkdtemp()`) but releases neither, so transient storage is not released
on the success path. -/
theorem temp_not_released_cex :
    (run goodEnv).outcome = .completed goodVideo goodScript goodFileName ∧
    (run goodEnv).tempAllocated = ["/tmp/tmpaudio0.mp3", "/tmp/dir0"] ∧
    (run goodEnv).tempReleased = [] :=
  ⟨rfl, rfl, rfl⟩

/-- Claim C6 (amended): every completed run allocated exactly its own two
OS-provided fresh temporary names (the audio file and the working
directory) and released nothing; no path — success, API error, missing
image, missing key, or unparseable response — releases transient storage,
which is left to the operating system. -/
theorem temp_storage_never_released (env : Env) (va : VideoAsset) (s f : String)
    (h : (run env).outcome = .completed va s f) :
    (run env).tempAllocated = [env.audioTmpName, env.tmpDirName] ∧
    (run env).tempReleased = [] ∧
    (run { env with respStatus := 500 }).tempReleased = [] ∧
    (run { env with uploadedFile := false }).tempReleased = [] ∧
    (run { env with apiKey := none }).tempReleased = [] ∧
    (run { env with respJson := none }).tempReleased = [] := by
  obtain ⟨k, c, hk, hu, hs, hc, -, -, -⟩ := run_completed_inv env va s f h
  rw [run_200_eq env k hk hu hs, hc]
  exact ⟨rfl, rfl, run_never_releases _, run_never_releases _,
    run_never_releases _, run_never_releases _⟩

/-- Witness for the amended C6 at `goodEnv`. -/
theorem temp_storage_never_released_witness :
    (run goodEnv).tempAllocated = [goodEnv.audioTmpName, goodEnv.tmpDirName] ∧
    (run goodEnv).tempReleased = [] ∧
    (run { goodEnv with respStatus := 500 }).tempReleased = [] ∧
    (run { goodEnv with uploadedFile := false }).tempReleased = [] ∧
    (run { goodEnv with apiKey := none }).tempReleased = [] ∧
    (run { goodEnv with respJson := none }).tempReleased = [] :=
  temp_storage_never_released goodEnv goodVideo goodScript goodFileName rfl

/-- An environment whose product name contains a tab character. -/
def tabNameEnv : Env := { goodEnv with productName := "Brass\tLamp" }

/-- The video asset of the tab-name run. -/
def tabVideo : VideoAsset := assembleVideo tabNameEnv goodScript

/-- Claim C8 counterexample: `replace(' ', '_')` replaces only the space
character, so a product name containing a tab — a whitespace character —
yields a suggested filename that still contains that whitespace. -/
theorem whitespace_filename_cex :
    (run tabNameEnv).outcome = .completed tabVideo goodScript "Brass\tLamp.mp4" ∧
    pyIsSpace '\t' = true ∧
    '\t' ∈ "Brass\tLamp.mp4".data := by
  refine ⟨rfl, rfl, ?_⟩
  decide

/-- Claim C8 (amended): the suggested filename is the product name with
each space character (U+0020) replaced by an underscore and the fixed
".mp4" extension appended; no space character survives, but other
whitespace characters are preserved. -/
theorem filename_space_replacement (env : Env) (va : VideoAsset) (s f : String)
    (h : (run env).outcome = .completed va s f) :
    f = pyReplaceChar env.productName ' ' '_' ++ ".mp4" ∧
    ' ' ∉ f.data := by
  obtain ⟨k, c, -, -, -, -, -, -, hf⟩ := run_completed_inv env va s f h
  subst hf
  refine ⟨rfl, ?_⟩
  show ' ' ∉ (pyReplaceChar env.productName ' ' '_' ++ ".mp4").data
  rw [string_data_append, pyReplaceChar_data]
  intro hmem
  rcases List.mem_append.mp hmem with hm | hm
  · obtain ⟨x, -, hx⟩ := List.mem_map.mp hm
    by_cases hxs : x = ' '
    · rw [if_pos hxs] at hx
      exact absurd hx (by decide)
    · rw [if_neg hxs] at hx
      exact hxs hx
  · exact absurd hm (by decide)

/-- Witness for the amended C8 at `goodEnv`. -/
theorem filename_space_replacement_witness :
    goodFileName = pyReplaceChar goodEnv.productName ' ' '_' ++ ".mp4" ∧
    ' ' ∉ goodFileName.data :=
  filename_space_replacement goodEnv goodVideo goodScript goodFileName rfl
